import Mathlib

/-!
A verification development for a small WebSocket engine made of a stream
assembler (streaming.py, class Stream) and a threaded connection driver
(server/handler/threadedhandler.py, class WebSocketHandler).

The embedding works at frame granularity: the byte-level frame decode
(framing.py, absent from the sources) is abstracted by the design document's
decode contract — each successful read-loop cycle yields one completed
frame — while the classification of completed frames (Stream.receiver,
streaming.py lines 155-232) and every driver reaction
(WebSocketHandler._receive, threadedhandler.py lines 158-225) are translated
branch by branch.  Wire encoding of outbound frames and the message classes
(messaging.py, absent from the sources) are modelled from the design
document's encode contract and wire-format section.
-/

namespace WS

/-- RFC6455 opcodes.  Modelled from the spec: framing.py is not in the
sources; the opcode constants follow the wire-format section (byte0 low
nibble) and the opcode taxonomy of the design document. -/
def OPCODE_CONTINUATION : Nat := 0

def OPCODE_TEXT : Nat := 1

def OPCODE_BINARY : Nat := 2

def OPCODE_CLOSE : Nat := 8

def OPCODE_PING : Nat := 9

def OPCODE_PONG : Nat := 10

/-- A continuation byte of a UTF-8 sequence: 0x80-0xBF. -/
def isUtf8Cont (b : Nat) : Bool := 128 ≤ b && b ≤ 191

/-- Validity of a byte sequence for Python 2's strict utf-8 decoder, as used
by streaming.py (`bytes.decode("utf-8")` at lines 177 and 198).  Leads
0xC2-0xDF take one continuation byte; 0xE0 requires 0xA0-0xBF then a
continuation byte; 0xE1-0xEF take two continuation bytes (CPython 2 accepts
lone surrogates, so 0xED is not special-cased); 0xF0 requires 0x90-0xBF then
two continuation bytes; 0xF1-0xF3 take three continuation bytes; 0xF4
requires 0x80-0x8F then two continuation bytes.  Everything else is
invalid. -/
def utf8Valid : List Nat → Bool
  | [] => true
  | b :: rest =>
    if b ≤ 127 then utf8Valid rest
    else if 194 ≤ b && b ≤ 223 then
      match rest with
      | c1 :: r => isUtf8Cont c1 && utf8Valid r
      | [] => false
    else if b = 224 then
      match rest with
      | c1 :: c2 :: r => (160 ≤ c1 && c1 ≤ 191) && isUtf8Cont c2 && utf8Valid r
      | _ => false
    else if 225 ≤ b && b ≤ 239 then
      match rest with
      | c1 :: c2 :: r => isUtf8Cont c1 && isUtf8Cont c2 && utf8Valid r
      | _ => false
    else if b = 240 then
      match rest with
      | c1 :: c2 :: c3 :: r =>
          (144 ≤ c1 && c1 ≤ 191) && isUtf8Cont c2 && isUtf8Cont c3 && utf8Valid r
      | _ => false
    else if 241 ≤ b && b ≤ 243 then
      match rest with
      | c1 :: c2 :: c3 :: r =>
          isUtf8Cont c1 && isUtf8Cont c2 && isUtf8Cont c3 && utf8Valid r
      | _ => false
    else if b = 244 then
      match rest with
      | c1 :: c2 :: c3 :: r =>
          (128 ≤ c1 && c1 ≤ 143) && isUtf8Cont c2 && isUtf8Cont c3 && utf8Valid r
      | _ => false
    else false

/-- The UTF-8 encoding of U+FFFD, the replacement character. -/
def replacementChar : List Nat := [239, 191, 189]

/-- Worker of utf8Replace below, structurally recursive on a fuel that the
wrapper instantiates with the input length (every step consumes at least one
byte, so the fuel never runs out on the wrapper's inputs). -/
def utf8ReplaceGo : Nat → List Nat → List Nat
  | 0, _ => []
  | _, [] => []
  | fuel + 1, b :: rest =>
    if b ≤ 127 then b :: utf8ReplaceGo fuel rest
    else if 194 ≤ b && b ≤ 223 then
      match rest with
      | c1 :: r =>
          if isUtf8Cont c1 then b :: c1 :: utf8ReplaceGo fuel r
          else replacementChar ++ utf8ReplaceGo fuel rest
      | [] => replacementChar
    else if b = 224 then
      match rest with
      | c1 :: c2 :: r =>
          if (160 ≤ c1 && c1 ≤ 191) && isUtf8Cont c2 then b :: c1 :: c2 :: utf8ReplaceGo fuel r
          else replacementChar ++ utf8ReplaceGo fuel rest
      | _ => replacementChar ++ utf8ReplaceGo fuel rest
    else if 225 ≤ b && b ≤ 239 then
      match rest with
      | c1 :: c2 :: r =>
          if isUtf8Cont c1 && isUtf8Cont c2 then b :: c1 :: c2 :: utf8ReplaceGo fuel r
          else replacementChar ++ utf8ReplaceGo fuel rest
      | _ => replacementChar ++ utf8ReplaceGo fuel rest
    else if b = 240 then
      match rest with
      | c1 :: c2 :: c3 :: r =>
          if (144 ≤ c1 && c1 ≤ 191) && isUtf8Cont c2 && isUtf8Cont c3 then
            b :: c1 :: c2 :: c3 :: utf8ReplaceGo fuel r
          else replacementChar ++ utf8ReplaceGo fuel rest
      | _ => replacementChar ++ utf8ReplaceGo fuel rest
    else if 241 ≤ b && b ≤ 243 then
      match rest with
      | c1 :: c2 :: c3 :: r =>
          if isUtf8Cont c1 && isUtf8Cont c2 && isUtf8Cont c3 then
            b :: c1 :: c2 :: c3 :: utf8ReplaceGo fuel r
          else replacementChar ++ utf8ReplaceGo fuel rest
      | _ => replacementChar ++ utf8ReplaceGo fuel rest
    else if b = 244 then
      match rest with
      | c1 :: c2 :: c3 :: r =>
          if (128 ≤ c1 && c1 ≤ 143) && isUtf8Cont c2 && isUtf8Cont c3 then
            b :: c1 :: c2 :: c3 :: utf8ReplaceGo fuel r
          else replacementChar ++ utf8ReplaceGo fuel rest
      | _ => replacementChar ++ utf8ReplaceGo fuel rest
    else replacementChar ++ utf8ReplaceGo fuel rest

/-- Lenient UTF-8 decoding, re-encoded to bytes.  Models
`bytes.decode("utf-8", "replace")` at streaming.py line 206, per the spec:
the reason of a received close frame is "decoded leniently (invalid UTF-8
replaced rather than rejected)".  A valid sequence is copied; on a violation
one replacement character is emitted, the offending lead byte is skipped and
decoding continues, so the function is total — no input is rejected. -/
def utf8Replace (l : List Nat) : List Nat := utf8ReplaceGo l.length l

/-- A completed wire frame, as handed over by the frame decoder to the
classification step of Stream.receiver (streaming.py lines 166-168).
`fin` models framing.py's 0/1 flag as a Bool (the source compares
`frame.fin == 1`). -/
structure Frame where
  fin : Bool
  opcode : Nat
  masking_key : Option (List Nat)
  body : List Nat
deriving DecidableEq, Repr

/-- Unmasking (frame.unmask, framing.py absent from the sources).  Modelled
from the spec: byte i of the body is XOR-ed with key byte i mod 4. -/
def unmask (key : List Nat) (b : List Nat) : List Nat :=
  b.mapIdx (fun i x => Nat.xor x (key.getD (i % 4) 0))

/-- Message kind: messaging.py's TextMessage vs BinaryMessage
(distinguished by m.opcode in streaming.py line 196). -/
inductive MsgKind
  | text
  | binary
deriving DecidableEq, Repr

/-- A data message accumulator (messaging.py is not in the sources).
Modelled from the spec's data model: kind, accumulated payload buffer, and
a completed flag.  For a text message the buffer holds the UTF-8 encoding
of the accumulated string (Python stores the decoded unicode; for valid
UTF-8 the two views coincide byte for byte). -/
structure Message where
  kind : MsgKind
  buffer : List Nat
  completed : Bool
deriving DecidableEq, Repr

/-- messaging.py's CloseControlMessage: a close code and a reason.
Modelled from the spec's ControlMessage/ErrorRecord data model.  The
constructor defaults are code 1000 and an empty reason. -/
structure CloseControlMessage where
  code : Nat
  reason : List Nat
deriving DecidableEq, Repr

/-- The default close code of a CloseControlMessage built without an
explicit code, as at streaming.py line 206.  Modelled from the spec: 1000
(normal closure) is the caller-supplied default throughout. -/
def defaultCloseCode : Nat := 1000

/-- The mutable state of streaming.py's Stream object (lines 31-62):
the in-progress message slot, ping/pong queues, the closing slot and the
error queue. -/
structure Stream where
  message : Option Message
  pings : List (List Nat)
  pongs : List (List Nat)
  closing : Option CloseControlMessage
  errors : List CloseControlMessage
deriving DecidableEq, Repr

/-- streaming.py lines 93-102, Stream.has_message: the in-progress message
exists and is completed. -/
def Stream.has_message (s : Stream) : Bool :=
  match s.message with
  | some m => m.completed
  | none => false

/-- The guard `self.message and not self.message.completed` of the text
branch (streaming.py line 171): an in-progress, not yet completed message
exists. -/
def Stream.hasIncomplete (s : Stream) : Bool :=
  match s.message with
  | some m => !m.completed
  | none => false

/-- Classification of one completed frame: the body of Stream.receiver
after the frame parser finishes (streaming.py lines 166-221).  The body is
unmasked when a masking key is present and the body is non-empty (lines
166-168), then dispatched on the opcode:
text (170-182) — an incomplete in-progress message enqueues a 1002 error;
otherwise a strict UTF-8 decode either starts a fresh text message with
completed = fin or enqueues a 1007 error;
binary (184-187) — unconditionally starts a fresh binary message;
continuation (189-203) — no in-progress message enqueues a 1002 error;
otherwise completed is overwritten with fin first, then the chunk is
appended (strict UTF-8 decode per chunk for a text message, a failure
enqueuing a 1007 error and leaving the buffer unextended);
close (205-206) — records a CloseControlMessage whose reason is the lenient
decode of the whole payload, with the default code;
ping/pong (208-212) — appended to the respective queue;
anything else (214-215) — enqueues a 1003 error. -/
def Stream.process (s : Stream) (f : Frame) : Stream :=
  let bs := match f.masking_key with
    | some key => if f.body.isEmpty then f.body else unmask key f.body
    | none => f.body
  if f.opcode = OPCODE_TEXT then
    if s.hasIncomplete then
      {s with errors := s.errors ++ [⟨1002, []⟩]}
    else if utf8Valid bs then
      {s with message := some ⟨MsgKind.text, bs, f.fin⟩}
    else
      {s with errors := s.errors ++ [⟨1007, []⟩]}
  else if f.opcode = OPCODE_BINARY then
    {s with message := some ⟨MsgKind.binary, bs, f.fin⟩}
  else if f.opcode = OPCODE_CONTINUATION then
    match s.message with
    | none => {s with errors := s.errors ++ [⟨1002, []⟩]}
    | some m =>
      if m.kind = MsgKind.text then
        if utf8Valid bs then
          {s with message := some ⟨m.kind, m.buffer ++ bs, f.fin⟩}
        else
          {s with message := some ⟨m.kind, m.buffer, f.fin⟩,
                  errors := s.errors ++ [⟨1007, []⟩]}
      else
        {s with message := some ⟨m.kind, m.buffer ++ bs, f.fin⟩}
  else if f.opcode = OPCODE_CLOSE then
    {s with closing := some ⟨defaultCloseCode, utf8Replace bs⟩}
  else if f.opcode = OPCODE_PING then
    {s with pings := s.pings ++ [bs]}
  else if f.opcode = OPCODE_PONG then
    {s with pongs := s.pongs ++ [bs]}
  else
    {s with errors := s.errors ++ [⟨1003, []⟩]}

/-- Folding a sequence of completed frames through the assembler. -/
def processAll (s : Stream) (fs : List Frame) : Stream :=
  fs.foldl Stream.process s

/-- Big-endian 16-bit encoding. -/
def be16 (n : Nat) : List Nat := [n / 256 % 256, n % 256]

/-- Big-endian 64-bit encoding. -/
def be64 (n : Nat) : List Nat :=
  [n / 2 ^ 56 % 256, n / 2 ^ 48 % 256, n / 2 ^ 40 % 256, n / 2 ^ 32 % 256,
   n / 2 ^ 24 % 256, n / 2 ^ 16 % 256, n / 2 ^ 8 % 256, n % 256]

/-- Wire bytes of one outbound (never masked) frame.  Modelled from the
spec's encode contract and wire format: byte0 is fin·128 + opcode, byte1 the
7-bit length code (126/127 announcing a 16/64-bit big-endian extended
length), then the payload. -/
def frameBytes (fin : Bool) (op : Nat) (payload : List Nat) : List Nat :=
  let b0 := (if fin then 128 else 0) + op
  if payload.length ≤ 125 then b0 :: payload.length :: payload
  else if payload.length ≤ 65535 then b0 :: 126 :: (be16 payload.length ++ payload)
  else b0 :: 127 :: (be64 payload.length ++ payload)

/-- Wire bytes of a single close frame: CloseControlMessage.single()
(messaging.py is not in the sources).  Modelled from the spec: the close
payload is the 2-byte big-endian status code followed by the reason. -/
def closeFrameBytes (code : Nat) (reason : List Nat) : List Nat :=
  frameBytes true OPCODE_CLOSE (be16 code ++ reason)

/-- streaming.py lines 125-133, Stream.pong: the single-frame wire bytes of
a pong carrying the given data (PongControlMessage(data).single(), the
latter modelled from the spec's encode contract). -/
def Stream.pong (data : List Nat) : List Nat :=
  frameBytes true OPCODE_PONG data

/-- The Python exception raised by the handler paths below. -/
inductive PyErr
  | attributeError
deriving DecidableEq, Repr

/-- A dynamically typed Python value on which `.single()` may be attempted:
either a bytes value or a messaging.py CloseControlMessage object. -/
inductive PyVal
  | pybytes (b : List Nat)
  | closeMsg (code : Nat) (reason : List Nat)
deriving DecidableEq, Repr

/-- The attribute call `.single()`.  Modelled from the spec: single() builds
the single-frame wire bytes of a message object (encode contract; send mode
(b) writes payload.single() to the transport).  It exists only on message
objects: on a bytes value the attribute lookup raises AttributeError. -/
def pySingle : PyVal → Except PyErr (List Nat)
  | PyVal.closeMsg c r => Except.ok (closeFrameBytes c r)
  | PyVal.pybytes _ => Except.error PyErr.attributeError

/-- streaming.py lines 104-113, Stream.close: returns
CloseControlMessage(code=code, reason=reason).single() — per its own doc
string, "bytes representing a close control single framed message". -/
def Stream.close (code : Nat) (reason : List Nat) : PyVal :=
  PyVal.pybytes (closeFrameBytes code reason)

/-- The per-connection driver state of threadedhandler.py's
WebSocketHandler, together with its observable outputs: bytes written to
the transport (write_to_connection), application callbacks
(received_message, ponged, closed — recorded as lists), and whether
close_connection ran. -/
structure WebSocketHandler where
  stream : Stream
  client_terminated : Bool
  server_terminated : Bool
  writes : List (List Nat)
  msgCallbacks : List Message
  pongCallbacks : List (List Nat)
  closedCalls : List Nat
  connClosed : Bool
deriving DecidableEq, Repr

/-- threadedhandler.py lines 77-83: terminated is the conjunction of the
two termination flags. -/
def WebSocketHandler.terminated (h : WebSocketHandler) : Bool :=
  h.client_terminated && h.server_terminated

/-- threadedhandler.py lines 50-65, WebSocketHandler.close.  When
server_terminated is not yet set, the flag is set and the code then
evaluates `self.stream.close(code=code, reason=reason).single()`: the inner
call already yields the frame bytes (streaming.py line 113), so the outer
`.single()` is attempted on a bytes value and raises AttributeError before
write_to_connection runs — the raised exception is returned alongside the
state.  When the flag is already set the call is a no-op. -/
def WebSocketHandler.close (h : WebSocketHandler) (code : Nat) (reason : List Nat) :
    WebSocketHandler × Option PyErr :=
  if h.server_terminated then (h, none)
  else
    let h1 := {h with server_terminated := true}
    match pySingle (Stream.close code reason) with
    | Except.ok b => ({h1 with writes := h1.writes ++ [b]}, none)
    | Except.error e => (h1, some e)

/-- threadedhandler.py lines 209-211: write a pong frame for each queued
ping in arrival order (str(ping.data) is the identity on Python 2 byte
strings), then clear the queue. -/
def WebSocketHandler.drainPings (h : WebSocketHandler) : WebSocketHandler :=
  {h with writes := h.writes ++ h.stream.pings.map Stream.pong,
          stream := {h.stream with pings := []}}

/-- threadedhandler.py lines 213-215: invoke the ponged callback for each
queued pong in arrival order, then clear the queue. -/
def WebSocketHandler.drainPongs (h : WebSocketHandler) : WebSocketHandler :=
  {h with pongCallbacks := h.pongCallbacks ++ h.stream.pongs,
          stream := {h.stream with pongs := []}}

/-- threadedhandler.py lines 198-201: iterate over a copy of the error
queue, calling self.close(error.code, error.reason) and removing each
answered record from the live queue.  A raise from close propagates
immediately, leaving the current record in the queue. -/
def WebSocketHandler.drainErrors :
    WebSocketHandler → List CloseControlMessage → WebSocketHandler × Option PyErr
  | h, [] => (h, none)
  | h, e :: rest =>
    match h.close e.code e.reason with
    | (h1, some err) => (h1, some err)
    | (h1, none) =>
        WebSocketHandler.drainErrors
          {h1 with stream := {h1.stream with errors := h1.stream.errors.erase e}} rest

/-- How one iteration of the read loop ends: fall through to the next
iteration, break out of the loop, or propagate a raised exception to the
handler at line 216. -/
inductive LoopSignal
  | next
  | brk
  | crash (e : PyErr)
deriving DecidableEq, Repr

/-- The inspection block of one _receive iteration (threadedhandler.py
lines 189-215), run right after the stream consumed the freshly read bytes:
if a close message was recorded, answer it via self.close when this side
has not closed yet (the else branch marks client_terminated and breaks);
else a non-empty error queue is drained and the loop breaks; else a
complete message is handed to received_message and its slot cleared;
finally (unless the loop broke or an exception was raised) the ping and
pong queues are drained. -/
def WebSocketHandler.inspect (h : WebSocketHandler) : WebSocketHandler × LoopSignal :=
  match h.stream.closing with
  | some c =>
    if h.server_terminated then
      ({h with client_terminated := true}, LoopSignal.brk)
    else
      match h.close c.code c.reason with
      | (h1, some e) => (h1, LoopSignal.crash e)
      | (h1, none) => (h1.drainPings.drainPongs, LoopSignal.next)
  | none =>
    if h.stream.errors.isEmpty then
      let h1 :=
        if h.stream.has_message then
          {h with msgCallbacks := h.msgCallbacks ++ h.stream.message.toList,
                  stream := {h.stream with message := none}}
        else h
      (h1.drainPings.drainPongs, LoopSignal.next)
    else
      match WebSocketHandler.drainErrors h h.stream.errors with
      | (h1, some e) => (h1, LoopSignal.crash e)
      | (h1, none) => (h1, LoopSignal.brk)

/-- One full read-loop cycle on a completed frame: feed the stream, then
run the inspection block. -/
def WebSocketHandler.step (h : WebSocketHandler) (f : Frame) : WebSocketHandler × LoopSignal :=
  WebSocketHandler.inspect {h with stream := h.stream.process f}

/-- What one blocking read of the transport delivers to a cycle, at frame
granularity: the bytes completing one frame, or an empty read signalling
the peer went away (threadedhandler.py lines 182-184). -/
inductive ReadEvent
  | frame (f : Frame)
  | eof
deriving DecidableEq, Repr

/-- The read loop of _receive (threadedhandler.py lines 181-215): while not
terminated, read, feed the stream, inspect.  A break or a raised exception
leaves the loop with the current state (the except clause at lines 216-217
only prints the traceback). -/
def receiveLoop : WebSocketHandler → List ReadEvent → WebSocketHandler
  | h, [] => h
  | h, ev :: rest =>
    if h.terminated then h
    else
      match ev with
      | ReadEvent.eof => h
      | ReadEvent.frame f =>
        match h.step f with
        | (h1, LoopSignal.next) => receiveLoop h1 rest
        | (h1, LoopSignal.brk) => h1
        | (h1, LoopSignal.crash _) => h1

/-- The exit path of _receive (threadedhandler.py lines 218-225): the
finally clause forces both termination flags; then closed(1006) is invoked
only when no close frame was ever recorded on the stream; finally
close_connection performs shutdown-then-close with every failure swallowed
(modelled by the total flag assignment connClosed). -/
def WebSocketHandler.epilogue (h : WebSocketHandler) : WebSocketHandler :=
  let h1 := {h with client_terminated := true, server_terminated := true}
  let h2 :=
    if h1.stream.closing.isSome then h1
    else {h1 with closedCalls := h1.closedCalls ++ [1006]}
  {h2 with connClosed := true}

/-- WebSocketHandler._receive at frame granularity: the read loop followed
by its exit path. -/
def runReceive (h : WebSocketHandler) (evs : List ReadEvent) : WebSocketHandler :=
  (receiveLoop h evs).epilogue

/-- A fresh Stream (streaming.py lines 31-62). -/
def freshStream : Stream := ⟨none, [], [], none, []⟩

/-- A freshly constructed handler (threadedhandler.py lines 17-39). -/
def freshHandler : WebSocketHandler := ⟨freshStream, false, false, [], [], [], [], false⟩

/-- An unmasked text frame. -/
def textFrame (fin : Bool) (b : List Nat) : Frame := ⟨fin, OPCODE_TEXT, none, b⟩

/-- An unmasked binary frame. -/
def binFrame (fin : Bool) (b : List Nat) : Frame := ⟨fin, OPCODE_BINARY, none, b⟩

/-- An unmasked continuation frame. -/
def contFrame (fin : Bool) (b : List Nat) : Frame := ⟨fin, OPCODE_CONTINUATION, none, b⟩

/-- An unmasked close frame carrying the given payload. -/
def closeFrame (p : List Nat) : Frame := ⟨true, OPCODE_CLOSE, none, p⟩

/-- An unmasked ping frame carrying the given payload. -/
def pingFrame (p : List Nat) : Frame := ⟨true, OPCODE_PING, none, p⟩

/-- The status code a peer embedded in the first two bytes of a close-frame
payload, big-endian (wire-format section of the design document). -/
def payloadCloseCode (p : List Nat) : Nat := p.getD 0 0 * 256 + p.getD 1 0

/-- The status code embedded in a short (payload at most 125 bytes) close
frame on the wire: payload bytes 0 and 1 sit at offsets 2 and 3. -/
def frameCloseCode (b : List Nat) : Nat := b.getD 2 0 * 256 + b.getD 3 0

/-- Frames of one fragmented message: the first frame carries the given
opcode, every later chunk travels in a continuation frame, and only the
last frame has fin set. -/
def fragFrames : Nat → List (List Nat) → List Frame
  | _, [] => []
  | op, [b] => [⟨true, op, none, b⟩]
  | op, b :: b2 :: rest => ⟨false, op, none, b⟩ :: fragFrames OPCODE_CONTINUATION (b2 :: rest)

/-- A stream holding an incomplete in-progress text message, as left by a
text frame with fin clear. -/
def sIncompleteText : Stream := ⟨some ⟨MsgKind.text, [72], false⟩, [], [], none, []⟩

theorem processAll_nil (s : Stream) : processAll s [] = s := rfl

theorem processAll_cons (s : Stream) (f : Frame) (fs : List Frame) :
    processAll s (f :: fs) = processAll (s.process f) fs := rfl

/-- Unfolding of the continuation branch on a valid chunk (streaming.py
lines 189-203, success path): the chunk is appended and completed is set
to the frame's fin bit. -/
theorem process_cont_ok (s : Stream) (m : Message) (fin : Bool) (b : List Nat)
    (hm : s.message = some m) (hv : m.kind = MsgKind.text → utf8Valid b = true) :
    s.process ⟨fin, OPCODE_CONTINUATION, none, b⟩
      = {s with message := some ⟨m.kind, m.buffer ++ b, fin⟩} := by
  obtain ⟨k, buf, c⟩ := m
  cases k with
  | text =>
    have hvb := hv rfl
    simp [Stream.process, OPCODE_CONTINUATION, OPCODE_TEXT, OPCODE_BINARY, hm, hvb]
  | binary =>
    simp [Stream.process, OPCODE_CONTINUATION, OPCODE_TEXT, OPCODE_BINARY, hm]

/-- Unfolding of the text branch starting a fresh message (streaming.py
lines 170-179, success path). -/
theorem process_text_new (s : Stream) (fin : Bool) (b : List Nat)
    (hni : s.hasIncomplete = false) (hv : utf8Valid b = true) :
    s.process ⟨fin, OPCODE_TEXT, none, b⟩ = {s with message := some ⟨MsgKind.text, b, fin⟩} := by
  simp [Stream.process, OPCODE_TEXT, hni, hv]

/-- Unfolding of the binary branch (streaming.py lines 184-187): a binary
frame starts a fresh message with no guard at all. -/
theorem process_binary_new (s : Stream) (fin : Bool) (b : List Nat) :
    s.process ⟨fin, OPCODE_BINARY, none, b⟩ = {s with message := some ⟨MsgKind.binary, b, fin⟩} := by
  simp [Stream.process, OPCODE_BINARY, OPCODE_TEXT]

/-- Unfolding of the continuation branch on an invalid text chunk
(streaming.py lines 195-201): completed has already been overwritten with
the frame's fin bit when the decode fails, the buffer stays unextended and
a 1007 error is enqueued. -/
theorem process_cont_text_invalid (s : Stream) (buf : List Nat) (c : Bool)
    (fin : Bool) (b : List Nat)
    (hm : s.message = some ⟨MsgKind.text, buf, c⟩) (hinv : utf8Valid b = false) :
    s.process (contFrame fin b)
      = {s with message := some ⟨MsgKind.text, buf, fin⟩,
                errors := s.errors ++ [⟨1007, []⟩]} := by
  simp [Stream.process, contFrame, OPCODE_CONTINUATION, OPCODE_TEXT, OPCODE_BINARY, hm, hinv]

/-- Folding all remaining continuation frames of a fragmented message over
a stream that already holds an in-progress message: the buffers
concatenate and the final frame's fin completes the message. -/
theorem frag_final :
    ∀ (bodies : List (List Nat)) (s : Stream) (k : MsgKind) (buf : List Nat) (c : Bool),
      bodies ≠ [] →
      (k = MsgKind.text → ∀ b ∈ bodies, utf8Valid b = true) →
      s.message = some ⟨k, buf, c⟩ →
      processAll s (fragFrames OPCODE_CONTINUATION bodies)
        = {s with message := some ⟨k, buf ++ bodies.flatten, true⟩} := by
  intro bodies
  induction bodies with
  | nil => intro s k buf c hne; exact absurd rfl hne
  | cons b rest ih =>
    intro s k buf c hne hv hm
    cases rest with
    | nil =>
      rw [show fragFrames OPCODE_CONTINUATION [b] = [⟨true, OPCODE_CONTINUATION, none, b⟩]
            from rfl,
          processAll_cons, processAll_nil,
          process_cont_ok s ⟨k, buf, c⟩ true b hm (fun hk => hv hk b (by simp))]
      simp
    | cons b2 r2 =>
      rw [show fragFrames OPCODE_CONTINUATION (b :: b2 :: r2)
            = ⟨false, OPCODE_CONTINUATION, none, b⟩ :: fragFrames OPCODE_CONTINUATION (b2 :: r2)
            from rfl,
          processAll_cons,
          process_cont_ok s ⟨k, buf, c⟩ false b hm (fun hk => hv hk b (by simp)),
          ih _ k (buf ++ b) false (by simp)
            (fun hk bb hbb => hv hk bb (List.mem_cons_of_mem b hbb)) rfl]
      simp [List.append_assoc]

/-- Folding a proper front segment of the continuation frames: every frame
seen so far has fin clear, so the message stays incomplete and the buffer
holds the concatenation of the chunks consumed so far. -/
theorem frag_partial :
    ∀ (bodies : List (List Nat)) (j : Nat) (s : Stream) (k : MsgKind) (buf : List Nat),
      j < bodies.length →
      (k = MsgKind.text → ∀ b ∈ bodies, utf8Valid b = true) →
      s.message = some ⟨k, buf, false⟩ →
      processAll s ((fragFrames OPCODE_CONTINUATION bodies).take j)
        = {s with message := some ⟨k, buf ++ (bodies.take j).flatten, false⟩} := by
  intro bodies
  induction bodies with
  | nil => intro j s k buf hj; simp at hj
  | cons b rest ih =>
    intro j s k buf hj hv hm
    cases j with
    | zero =>
      rw [List.take_zero, processAll_nil]
      simp only [List.take_zero, List.flatten_nil, List.append_nil]
      rw [← hm]
    | succ j2 =>
      cases rest with
      | nil => simp at hj
      | cons b2 r2 =>
        have hj2 : j2 < (b2 :: r2).length := by
          simp only [List.length_cons] at hj ⊢; omega
        rw [show fragFrames OPCODE_CONTINUATION (b :: b2 :: r2)
              = ⟨false, OPCODE_CONTINUATION, none, b⟩ :: fragFrames OPCODE_CONTINUATION (b2 :: r2)
              from rfl,
            List.take_succ_cons, processAll_cons,
            process_cont_ok s ⟨k, buf, false⟩ false b hm (fun hk => hv hk b (by simp)),
            ih j2 _ k (buf ++ b) hj2
              (fun hk bb hbb => hv hk bb (List.mem_cons_of_mem b hbb)) rfl]
        simp [List.append_assoc]

/-- C1: the first call of WebSocketHandler.close on a fresh handler sets
server_terminated but transmits nothing — the flag is set and then the
expression stream.close(...).single() raises AttributeError (the inner call
already returned the frame bytes), so write_to_connection never runs; a
subsequent call with any arguments is a no-op, and close alone never makes
terminated true since client_terminated stays false. -/
theorem close_sets_flag_but_transmits_nothing :
    (freshHandler.close 1000 []).1.server_terminated = true
    ∧ (freshHandler.close 1000 []).1.writes = []
    ∧ (freshHandler.close 1000 []).2 = some PyErr.attributeError
    ∧ (freshHandler.close 1000 []).1.terminated = false
    ∧ (freshHandler.close 1000 []).1.client_terminated = false
    ∧ (freshHandler.close 1000 []).1.close 1002 [120, 121]
        = ((freshHandler.close 1000 []).1, none) := by
  decide

/-- C2 counterexample: a binary frame arriving while an incomplete text
message is in progress enqueues no error at all and silently replaces the
in-progress message (streaming.py lines 184-187 have no guard), refuting
the claim that a binary frame over an incomplete message enqueues a 1002
ProtocolError and leaves the message in place. -/
theorem binary_frame_replaces_incomplete_message :
    sIncompleteText.hasIncomplete = true
    ∧ (sIncompleteText.process (binFrame true [0, 1])).errors = []
    ∧ (sIncompleteText.process (binFrame true [0, 1])).message
        = some ⟨MsgKind.binary, [0, 1], true⟩ := by
  decide

/-- C2 amended: only a text frame arriving over an incomplete in-progress
message enqueues ProtocolError 1002 and leaves the message untouched
(streaming.py lines 170-174); a binary frame starts a new message
unconditionally, replacing whatever was in progress without any error
(lines 184-187). -/
theorem text_guard_incomplete_binary_unguarded :
    (∀ (s : Stream) (fin : Bool) (b : List Nat),
        s.hasIncomplete = true →
        s.process (textFrame fin b) = {s with errors := s.errors ++ [⟨1002, []⟩]})
    ∧ (∀ (s : Stream) (fin : Bool) (b : List Nat),
        s.process (binFrame fin b) = {s with message := some ⟨MsgKind.binary, b, fin⟩}) := by
  constructor
  · intro s fin b hinc
    simp [Stream.process, textFrame, OPCODE_TEXT, hinc]
  · intro s fin b
    exact process_binary_new s fin b

theorem text_guard_incomplete_binary_unguarded_witness :
    sIncompleteText.process (textFrame true [97])
        = {sIncompleteText with errors := sIncompleteText.errors ++ [⟨1002, []⟩]}
    ∧ sIncompleteText.process (binFrame false [5])
        = {sIncompleteText with message := some ⟨MsgKind.binary, [5], false⟩} :=
  ⟨text_guard_incomplete_binary_unguarded.1 sIncompleteText true [97] (by decide),
   text_guard_incomplete_binary_unguarded.2 sIncompleteText false [5]⟩

/-- C3 counterexample: a run in which a close frame is observed (the
application had already initiated the close, so the closing branch marks
client_terminated and exits) ends with no invocation of the closed
callback at all — the observed code is never delivered, refuting the claim
that the callback is invoked with the observed code
(threadedhandler.py lines 221-223 call closed(1006) only when
stream.closing is unset, with no else branch). -/
theorem close_observed_skips_closed_callback :
    (runReceive (freshHandler.close 1000 []).1
        [ReadEvent.frame (closeFrame [3, 232])]).closedCalls = []
    ∧ (runReceive (freshHandler.close 1000 []).1
        [ReadEvent.frame (closeFrame [3, 232])]).stream.closing.isSome = true := by
  decide

/-- C3 amended: when the read loop exits, both termination flags are forced
true and the transport is shut down and closed with failures swallowed; the
closed callback is invoked with code 1006 exactly when no close frame was
ever observed on the stream — when one was observed, no closed callback is
invoked at all. -/
theorem loop_exit_forces_flags_conditional_callback (h : WebSocketHandler) :
    h.epilogue.client_terminated = true
    ∧ h.epilogue.server_terminated = true
    ∧ h.epilogue.connClosed = true
    ∧ h.epilogue.writes = h.writes
    ∧ h.epilogue.closedCalls
        = h.closedCalls ++ (if h.stream.closing.isSome then [] else [1006]) := by
  unfold WebSocketHandler.epilogue
  cases hc : h.stream.closing.isSome <;> simp [hc]

/-- C4: on the error-drain path the first self.close call raises
AttributeError (stream.close(...).single() is called on bytes) before any
write happens: the run triggered by a continuation frame with no in-progress
message ends with no Close frame written, the error record still queued
(s.errors.remove is never reached), both flags forced true and closed(1006)
invoked via the exception path — refuting the claim that each queued
ErrorRecord is answered with one outgoing Close frame. -/
theorem error_drain_crashes_before_close_frame :
    (runReceive freshHandler [ReadEvent.frame (contFrame true [])]).writes = []
    ∧ (runReceive freshHandler [ReadEvent.frame (contFrame true [])]).stream.errors
        = [⟨1002, []⟩]
    ∧ (runReceive freshHandler [ReadEvent.frame (contFrame true [])]).closedCalls = [1006]
    ∧ (runReceive freshHandler [ReadEvent.frame (contFrame true [])]).server_terminated = true
    ∧ (runReceive freshHandler [ReadEvent.frame (contFrame true [])]).client_terminated
        = true := by
  decide

/-- C5: a continuation frame processed while no in-progress message exists
enqueues a 1002 error (streaming.py lines 189-193), and the driver run it
triggers terminates the connection — but transmits no Close frame, because
the answering self.close raises AttributeError before writing. -/
theorem continuation_without_message_1002_terminates :
    (freshStream.process (contFrame true [108, 111])).errors = [⟨1002, []⟩]
    ∧ (runReceive freshHandler [ReadEvent.frame (contFrame true [108, 111])]).terminated
        = true
    ∧ (runReceive freshHandler [ReadEvent.frame (contFrame true [108, 111])]).connClosed
        = true
    ∧ (runReceive freshHandler [ReadEvent.frame (contFrame true [108, 111])]).writes
        = [] := by
  decide

/-- C6: a fragmented message — a text or binary first frame with fin clear
followed by continuation frames, fin set only on the last — reassembles to
the concatenation of the chunk payloads in order; after every proper front
segment the in-progress message exists with completed false (so has_message
is false), and only after the last frame is the message completed. -/
theorem fragmented_frames_reassemble_concatenation (op : Nat) (bodies : List (List Nat))
    (hop : op = OPCODE_TEXT ∨ op = OPCODE_BINARY)
    (hlen : 2 ≤ bodies.length)
    (hval : op = OPCODE_TEXT → ∀ b ∈ bodies, utf8Valid b = true) :
    (processAll freshStream (fragFrames op bodies)).message
        = some ⟨if op = OPCODE_TEXT then MsgKind.text else MsgKind.binary,
                bodies.flatten, true⟩
    ∧ (processAll freshStream (fragFrames op bodies)).has_message = true
    ∧ ∀ j, 1 ≤ j → j < bodies.length →
        ((processAll freshStream ((fragFrames op bodies).take j)).message.map
            Message.completed = some false
         ∧ (processAll freshStream ((fragFrames op bodies).take j)).has_message = false) := by
  match bodies, hlen with
  | b0 :: b1 :: rest, _ =>
    have hfrag : fragFrames op (b0 :: b1 :: rest)
        = ⟨false, op, none, b0⟩ :: fragFrames OPCODE_CONTINUATION (b1 :: rest) := rfl
    have h0 : freshStream.process ⟨false, op, none, b0⟩
        = {freshStream with message := some (Message.mk
            (if op = OPCODE_TEXT then MsgKind.text else MsgKind.binary) b0 false)} := by
      rcases hop with hop | hop
      · rw [hop]
        simp only [OPCODE_TEXT, if_pos rfl]
        exact process_text_new freshStream false b0 rfl
          (hval hop b0 (by simp))
      · rw [hop]
        rw [if_neg (by simp [OPCODE_BINARY, OPCODE_TEXT])]
        exact process_binary_new freshStream false b0
    have hv2 : (if op = OPCODE_TEXT then MsgKind.text else MsgKind.binary) = MsgKind.text →
        ∀ b ∈ b1 :: rest, utf8Valid b = true := by
      intro hk b hb
      rcases hop with hop | hop
      · exact hval hop b (List.mem_cons_of_mem b0 hb)
      · rw [hop, if_neg (by simp [OPCODE_BINARY, OPCODE_TEXT])] at hk
        exact absurd hk (by simp)
    refine ⟨?_, ?_, ?_⟩
    · rw [hfrag, processAll_cons, h0,
          frag_final (b1 :: rest) _ _ b0 false (by simp) hv2 rfl]
      simp
    · rw [hfrag, processAll_cons, h0,
          frag_final (b1 :: rest) _ _ b0 false (by simp) hv2 rfl]
      simp [Stream.has_message]
    · intro j h1 hjlt
      match j, h1 with
      | j2 + 1, _ =>
        have hj2 : j2 < (b1 :: rest).length := by
          simp only [List.length_cons] at hjlt ⊢; omega
        rw [hfrag, List.take_succ_cons, processAll_cons, h0,
            frag_partial (b1 :: rest) j2 _ _ b0 hj2 hv2 rfl]
        constructor
        · simp
        · simp [Stream.has_message]

theorem fragmented_frames_reassemble_concatenation_witness :
    (processAll freshStream (fragFrames OPCODE_TEXT [[72, 101], [108], [108, 111]])).message
        = some ⟨MsgKind.text, [72, 101, 108, 108, 111], true⟩
    ∧ (processAll freshStream
          ((fragFrames OPCODE_TEXT [[72, 101], [108], [108, 111]]).take 2)).has_message
        = false := by
  have h := fragmented_frames_reassemble_concatenation OPCODE_TEXT
    [[72, 101], [108], [108, 111]] (Or.inl rfl) (by decide) (fun _ => by decide)
  exact ⟨h.1.trans (by decide), (h.2.2 2 (by decide) (by decide)).2⟩

/-- C7 counterexample: a text frame with an invalid UTF-8 body arriving
while an incomplete message is in progress enqueues 1002, not 1007 — the
incomplete-message guard at streaming.py line 171 preempts the UTF-8
decode, refuting the claim read over all assembler states. -/
theorem invalid_text_over_incomplete_gets_1002_not_1007 :
    utf8Valid [255] = false
    ∧ (sIncompleteText.process (textFrame true [255])).errors = [⟨1002, []⟩]
    ∧ CloseControlMessage.mk 1007 [] ∉ (sIncompleteText.process (textFrame true [255])).errors := by
  decide

/-- C7 amended: a text frame with invalid UTF-8 body processed when no
incomplete message exists enqueues InvalidPayload 1007 and produces no
message; a continuation chunk of a text message with invalid UTF-8
enqueues 1007 and leaves the buffer unextended (though completed is
overwritten with the frame's fin bit first); when an incomplete message is
in progress, a text frame is answered with 1002 instead. -/
theorem invalid_utf8_enqueues_1007 :
    (∀ (s : Stream) (fin : Bool) (b : List Nat),
        s.hasIncomplete = false → utf8Valid b = false →
        s.process (textFrame fin b) = {s with errors := s.errors ++ [⟨1007, []⟩]})
    ∧ (∀ (s : Stream) (buf : List Nat) (c fin : Bool) (b : List Nat),
        s.message = some ⟨MsgKind.text, buf, c⟩ → utf8Valid b = false →
        s.process (contFrame fin b)
          = {s with message := some ⟨MsgKind.text, buf, fin⟩,
                    errors := s.errors ++ [⟨1007, []⟩]}) := by
  constructor
  · intro s fin b hni hinv
    simp [Stream.process, textFrame, OPCODE_TEXT, hni, hinv]
  · intro s buf c fin b hm hinv
    exact process_cont_text_invalid s buf c fin b hm hinv

theorem invalid_utf8_enqueues_1007_witness :
    freshStream.process (textFrame true [200])
        = {freshStream with errors := freshStream.errors ++ [⟨1007, []⟩]}
    ∧ sIncompleteText.process (contFrame false [200])
        = {sIncompleteText with message := some ⟨MsgKind.text, [72], false⟩,
                                errors := sIncompleteText.errors ++ [⟨1007, []⟩]} :=
  ⟨invalid_utf8_enqueues_1007.1 freshStream true [200] (by decide) (by decide),
   invalid_utf8_enqueues_1007.2 sIncompleteText [72] false false [200] rfl (by decide)⟩

/-- C8: in a cycle whose stream has no recorded close, an empty error
queue, no complete message and no queued pongs, a ping frame with payload
P makes the driver write exactly one pong frame per queued ping in arrival
order — P's pong carrying payload identical to P — with the ping queue
emptied and no application callback invoked (the record equality pins
msgCallbacks, pongCallbacks and closedCalls unchanged). -/
theorem ping_answered_same_cycle (h : WebSocketHandler) (p : List Nat)
    (hclosing : h.stream.closing = none)
    (herr : h.stream.errors = [])
    (hmsg : h.stream.has_message = false)
    (hpong : h.stream.pongs = [])
    (hlen : p.length ≤ 125) :
    h.step (pingFrame p)
        = ({h with stream := {h.stream with pings := []},
                   writes := h.writes ++ (h.stream.pings ++ [p]).map Stream.pong},
           LoopSignal.next)
    ∧ (Stream.pong p).drop 2 = p := by
  constructor
  · obtain ⟨⟨msg, pings, pongs, closing, errors⟩, ct, st, wr, mc, pc, cc, conn⟩ := h
    simp only at hclosing herr hmsg hpong
    subst hclosing herr hpong
    cases msg with
    | none =>
      simp [WebSocketHandler.step, Stream.process, pingFrame, OPCODE_PING, OPCODE_TEXT,
            OPCODE_BINARY, OPCODE_CONTINUATION, OPCODE_CLOSE, WebSocketHandler.inspect,
            Stream.has_message, WebSocketHandler.drainPings, WebSocketHandler.drainPongs]
    | some m =>
      have hmc : m.completed = false := by
        simpa [Stream.has_message] using hmsg
      simp [WebSocketHandler.step, Stream.process, pingFrame, OPCODE_PING, OPCODE_TEXT,
            OPCODE_BINARY, OPCODE_CONTINUATION, OPCODE_CLOSE, WebSocketHandler.inspect,
            Stream.has_message, hmc, WebSocketHandler.drainPings, WebSocketHandler.drainPongs]
  · simp [Stream.pong, frameBytes, hlen]

theorem ping_answered_same_cycle_witness :
    freshHandler.step (pingFrame [104, 105])
        = ({freshHandler with
              stream := {freshHandler.stream with pings := []},
              writes := freshHandler.writes
                  ++ (freshHandler.stream.pings ++ [[104, 105]]).map Stream.pong},
           LoopSignal.next)
    ∧ (Stream.pong [104, 105]).drop 2 = [104, 105] :=
  ping_answered_same_cycle freshHandler [104, 105] rfl rfl rfl rfl (by decide)

/-- C9: a received close frame is recorded with the default code and the
whole payload decoded leniently as the reason — the peer's embedded status
code (payload bytes 0-1) is discarded — and the answering close frame
composed from the recorded message (stream.close inside the driver's
self.close) embeds the default code 1000, never the peer's embedded
code. -/
theorem peer_close_code_discarded (s : Stream) (p : List Nat)
    (hne : payloadCloseCode p ≠ 1000)
    (hlen : (utf8Replace p).length ≤ 123) :
    (s.process (closeFrame p)).closing = some ⟨defaultCloseCode, utf8Replace p⟩
    ∧ Stream.close defaultCloseCode (utf8Replace p)
        = PyVal.pybytes (closeFrameBytes 1000 (utf8Replace p))
    ∧ frameCloseCode (closeFrameBytes 1000 (utf8Replace p)) = 1000
    ∧ frameCloseCode (closeFrameBytes 1000 (utf8Replace p)) ≠ payloadCloseCode p := by
  have hcode : frameCloseCode (closeFrameBytes 1000 (utf8Replace p)) = 1000 := by
    simp [closeFrameBytes, frameBytes, frameCloseCode, be16, List.getD, hlen]
  refine ⟨?_, rfl, hcode, ?_⟩
  · simp [Stream.process, closeFrame, OPCODE_CLOSE, OPCODE_TEXT, OPCODE_BINARY,
          OPCODE_CONTINUATION]
  · rw [hcode]
    exact fun h => hne h.symm

theorem peer_close_code_discarded_witness :
    (freshStream.process (closeFrame [3, 233, 104, 105])).closing
        = some ⟨defaultCloseCode, utf8Replace [3, 233, 104, 105]⟩
    ∧ frameCloseCode (closeFrameBytes 1000 (utf8Replace [3, 233, 104, 105])) = 1000
    ∧ frameCloseCode (closeFrameBytes 1000 (utf8Replace [3, 233, 104, 105]))
        ≠ payloadCloseCode [3, 233, 104, 105] :=
  have h := peer_close_code_discarded freshStream [3, 233, 104, 105]
    (by decide) (by decide)
  ⟨h.1, h.2.2.1, h.2.2.2⟩

/-- C10: a continuation frame with an invalid UTF-8 chunk extending an
in-progress text message enqueues 1007 and leaves the buffer unextended,
but the message's completed flag has already been overwritten with the
failing frame's fin bit (streaming.py line 195 runs before the decode at
line 198), so the in-progress message is not left fully unchanged. -/
theorem continuation_error_overwrites_completed (s : Stream) (buf : List Nat)
    (c fin : Bool) (b : List Nat)
    (hm : s.message = some ⟨MsgKind.text, buf, c⟩) (hinv : utf8Valid b = false) :
    s.process (contFrame fin b)
      = {s with message := some ⟨MsgKind.text, buf, fin⟩,
                errors := s.errors ++ [⟨1007, []⟩]} :=
  process_cont_text_invalid s buf c fin b hm hinv

theorem continuation_error_overwrites_completed_witness :
    sIncompleteText.process (contFrame true [255])
        = {sIncompleteText with message := some ⟨MsgKind.text, [72], true⟩,
                                errors := sIncompleteText.errors ++ [⟨1007, []⟩]}
    ∧ sIncompleteText.message.map Message.completed = some false :=
  ⟨continuation_error_overwrites_completed sIncompleteText [72] false true [255]
      rfl (by decide),
   by decide⟩

end WS
